import Mathlib

/-!
# Verification of the Amtrak on-time-analysis ETL pipeline

A shallow embedding, in Lean 4, of the data model and the ETL operations of the
`data1050-amtrak-on-time-analysis` repository, together with theorems settling
the specification claims about it.

Conventions used throughout:
* Timestamps are whole minutes on an integer time line (1440 minutes per
  calendar day).  Every timestamp handled by the pipeline is minute-granular,
  so `Timedelta.total_seconds()/60` followed by `np.rint` is exact on this
  model and delays are plain integer subtractions.
* `pandas.to_datetime(..., errors=coerce)` produces `NaT` on unparseable
  input; a coerced parse result is modelled as an `Option` value, with `none`
  for `NaT`.
* Fallible steps (a Python exception escaping a function) are modelled with
  `Except String`, the error string naming the exception.
* SQL tables are modelled as lists of rows in insertion order.
-/

namespace AmtrakETL

/-! ## Date-time model -/

def minutesPerDay : Int := 1440

/-- Minute `timeOfDay` of calendar day `day` on the integer minute line. -/
def mkDT (day : Int) (timeOfDay : Int) : Int := day * minutesPerDay + timeOfDay

/-- Calendar date (day number) of a timestamp, i.e. `Series.dt.date`
(floor division, matching calendar truncation for all timestamps). -/
def dateOf (dt : Int) : Int := Int.ediv dt minutesPerDay

/-! ## Midnight-rollover correction and delay (trains_ETL.py, process_columns)

`trains_ETL.py` lines 279-287:

    max_expected_delay = pd.Timedelta(hours=10)
    delta = df[Act Date] - df[Sched Date]
    m_late = (delta < max_expected_delay) & (-1*max_expected_delay > delta)
    m_early = (-1*delta < max_expected_delay) & (-1*max_expected_delay > -1*delta)
    df.loc[m_late, Act Date] += pd.Timedelta(days=1)
    df.loc[m_early, Act Date] -= pd.Timedelta(days=1)
    diff = (df[Act Date] - df[Sched Date]).dt.total_seconds()/60

Both masks are computed from the uncorrected `delta` and then applied one after
the other to `Act Date`; the embedding mirrors that order.
-/

/-- The threshold `max_expected_delay = pd.Timedelta(hours=10)`, in minutes. -/
def maxExpectedDelay : Int := 600

/-- The per-row midnight-rollover correction applied to the composed actual
date-time `act` relative to the scheduled date-time `sched`. -/
def actDateCorrected (sched act : Int) : Int :=
  let delta := act - sched
  let mLate := delta < maxExpectedDelay ∧ -maxExpectedDelay > delta
  let mEarly := -delta < maxExpectedDelay ∧ -maxExpectedDelay > -delta
  let act1 := if mLate then act + minutesPerDay else act
  if mEarly then act1 - minutesPerDay else act1

/-- The `timedelta_from_sched` column: the delay in minutes, actual minus scheduled, after
the rollover correction (exact here because timestamps are minute-granular). -/
def timedeltaFromSched (sched act : Int) : Int := actDateCorrected sched act - sched

/-! ## Precipitation classification (utils.py, update_precip)

`utils.py` lines 109-132: an SQL `UPDATE ... SET precip_type = (CASE ... END)
WHERE weather_type IS NOT NULL`.  The `CASE` expression has no `ELSE` branch,
so a row matched by no `WHEN` receives SQL `NULL`, modelled as `none`.
`numeric` columns are modelled as `ℚ`. -/

/-- Auxiliary for `sqlLike`: does the character list start with `pat`? -/
def startsWithCL : List Char → List Char → Bool
  | [], _ => true
  | _ :: _, [] => false
  | p :: ps, c :: cs => p = c && startsWithCL ps cs

/-- Auxiliary for `sqlLike`: does the character list contain `pat` as a
contiguous sublist? -/
def containsCL (pat : List Char) : List Char → Bool
  | [] => startsWithCL pat []
  | c :: rest => startsWithCL pat (c :: rest) || containsCL pat rest

/-- SQL `wt LIKE percent-marker-percent` (case-sensitive substring containment). -/
def sqlLike (wt marker : String) : Bool := containsCL marker.data wt.data

/-- The `CASE` expression of the `update_precip` command, evaluated on one
joined row with non-null `weather_type`.  The six `WHEN` branches appear in
source order; no `ELSE` branch exists. -/
def updatePrecip (weather_type : String) (precipitation temperature : ℚ) :
    Option String :=
  if weather_type = "" ∧ precipitation = 0 then some "None"
  else if sqlLike weather_type "Snow" = true ∧ sqlLike weather_type "Rain" = true then
    some "Snow"
  else if sqlLike weather_type "Snow" = true ∧ sqlLike weather_type "Rain" = false then
    some "Snow"
  else if sqlLike weather_type "Rain" = true ∧ sqlLike weather_type "Snow" = false then
    some "Rain"
  else if weather_type = "" ∧ precipitation > 0 ∧ temperature ≥ 32 then some "Rain"
  else if weather_type = "" ∧ precipitation > 0 ∧ temperature < 32 then some "Snow"
  else none

/-! ## Join deduplication (utils.py, remove_duplicates)

`utils.py` lines 84-106: an SQL `DELETE FROM stops_joined WHERE stop_id IN
(SELECT ... row_number() OVER (PARTITION BY origin_date, train_num,
station_code, arrival_or_departure ORDER BY stop_id) ... WHERE row_number >= 2)`.
The table is modelled as a list of rows; only the columns the pass reads are
carried (`stop_id` is the surrogate serial primary key). -/

structure JoinedStop where
  stop_id : Nat
  origin_date : Int
  train_num : Nat
  station_code : String
  arrival_or_departure : String
  deriving DecidableEq

/-- The `PARTITION BY` columns: the natural key of a joined stop. -/
def natKey (r : JoinedStop) : Int × Nat × String × String :=
  (r.origin_date, r.train_num, r.station_code, r.arrival_or_departure)

/-- The window function `row_number() OVER (PARTITION BY natural key ORDER BY stop_id)` for row
`r` of table `t`: one plus the number of rows of the partition of `r` that sort
before it (with pairwise-distinct `stop_id`, exactly the rows with smaller
`stop_id`). -/
def rowNumber (t : List JoinedStop) (r : JoinedStop) : Nat :=
  1 + (t.filter (fun s => decide (natKey s = natKey r ∧ s.stop_id < r.stop_id))).length

/-- The deduplication pass: delete every row whose `row_number >= 2`,
keeping the rows with `row_number < 2`. -/
def removeDuplicates (t : List JoinedStop) : List JoinedStop :=
  t.filter (fun r => decide (rowNumber t r < 2))

/-! ## Idempotent upsert into stops (trains_ETL.py, insert_into_stops)

`trains_ETL.py` lines 298-322: `INSERT INTO stops (...) VALUES (...) ON
CONFLICT DO NOTHING;`.  The insert is a no-op exactly when the new row
violates a uniqueness constraint of the table. -/

/-- One normalized stop row as bound to the insert statement.  The natural-key
columns are explicit; the remaining column values are carried opaquely. -/
structure StopRow where
  arrival_or_departure : String
  train_num : Nat
  station_code : String
  origin_date : Int
  other_columns : List String
  deriving DecidableEq

/-- Modelled from the spec: the natural uniqueness constraint of the `stops`
table.  The table DDL is not among the source files of the repository; spec §4.4 and §8 say
the conflict-ignore insert is "keyed on a natural uniqueness constraint" over
(train number, station, origin date, arrival-or-departure). -/
def stopsNatKey (r : StopRow) : Nat × String × Int × String :=
  (r.train_num, r.station_code, r.origin_date, r.arrival_or_departure)

/-- The `INSERT ... ON CONFLICT DO NOTHING` upsert into the `stops` table: append the row
unless a row with the same natural key is already present. -/
def insertIntoStops (t : List StopRow) (r : StopRow) : List StopRow :=
  if t.any (fun s => decide (stopsNatKey s = stopsNatKey r)) then t
  else t ++ [r]

/-! ## Per-row insert loop (utils.py, update_table and update_trains)

`utils.py` lines 163-194: for each CSV row, `cur.execute(command, row)` inside
`try`, with `conn.rollback()` in the `except` branch and one `conn.commit()`
after the loop.  Under the default psycopg2 transaction handling every `execute`
since the last `commit`/`rollback` joins one open transaction, and
`conn.rollback()` aborts that whole transaction.  The connection is modelled
as (committed rows, pending rows of the open transaction); an input row is
`some r` when its insert succeeds and `none` when it raises a database
error.  The same loop body is shared by `update_table` and `update_trains`
(the latter merely prepends the arrival-or-departure value to each row). -/

structure PgConn (α : Type) where
  committed : List α
  pending : List α
  deriving DecidableEq

/-- One iteration of the row loop: a successful `cur.execute` adds the row to
the open transaction; a database error is caught, logged, and answered with
`conn.rollback()`, which discards every pending row of the transaction. -/
def updateTableStep {α : Type} (c : PgConn α) (row : Option α) : PgConn α :=
  match row with
  | some r => { c with pending := c.pending ++ [r] }
  | none => { c with pending := [] }

/-- The functions `update_table` / `update_trains`: run the row loop, then `conn.commit()`
the rows of the surviving open transaction. -/
def updateTable {α : Type} (c : PgConn α) (rows : List (Option α)) : PgConn α :=
  let c1 := rows.foldl updateTableStep c
  { committed := c1.committed ++ c1.pending, pending := [] }

/-! ## Full column processing (trains_ETL.py, process_columns)

`trains_ETL.py` lines 242-292.  Parse results of the tolerant
(`errors=coerce`) pandas parses are modelled as `Option` values (`none` for
`NaT`/`NaN`).  The actual-time cell deserves three cases, because the code
parses it twice: once alone with format `%I:%M%p`, and once prepended with
the scheduled calendar date using the default parser.  An empty actual-time
string coerces to `NaT` in the first parse, but `"YYYY-MM-DD "` still parses
as midnight of that date in the second. -/

inductive ActCell
  /-- text both parses accept, denoting time of day `t` (minutes). -/
  | parseable (t : Int)
  /-- the empty string. -/
  | empty
  /-- text neither parse accepts (both coerce to `NaT`). -/
  | garbage
  deriving DecidableEq

/-- One row of the raw frame, with the parse outcome of each field the code
parses: `train_num` from `pd.to_numeric` (which has `errors=raise`),
`origin_date` (a day number) and `sched` (minutes) from `pd.to_datetime(...,
errors=coerce)`. -/
structure TrainRawRow where
  train_num : Option Int
  station : String
  direction : String
  origin_date : Option Int
  sched : Option Int
  act : ActCell
  service_disruption : String
  cancellations : String
  deriving DecidableEq

/-- The time-only parse of the actual-time cell:
`act_time = pd.to_datetime(df[...], format=%I:%M%p, exact=False, errors=coerce)`. -/
def actTimeOnly : ActCell → Option Int
  | .parseable t => some t
  | .empty => none
  | .garbage => none

/-- The composed column `df[Act Date] = pd.to_datetime(sched date string + " " +
actual string, errors=coerce)`: the scheduled calendar date combined with the actual time.
An unparseable scheduled date stringifies to `"NaT"`, making the whole string
unparseable. -/
def actDate (r : TrainRawRow) : Option Int :=
  match r.sched, r.act with
  | some s, .parseable t => some (mkDT (dateOf s) t)
  | some s, .empty => some (mkDT (dateOf s) 0)
  | some _, .garbage => none
  | none, _ => none

/-- The per-row value of the `diff` column (delay in minutes after rollover
correction), before `np.rint(diff).astype(int)`. -/
def diffOfRow (r : TrainRawRow) : Option Int :=
  match r.sched, actDate r with
  | some s, some a => some (timedeltaFromSched s a)
  | _, _ => none

/-- The flag conversion `.replace(SD, 1).replace(empty, 0)` (resp. with marker C) followed by
`.astype(int)` on one cell: the marker maps to 1, the empty string to 0, any
other text only converts if it is an integer literal. -/
def parseFlag (marker s : String) : Option Int :=
  if s = marker then some 1
  else if s = "" then some 0
  else s.toInt?

/-- The conversion `Series.astype(int)`: converts a whole column, raising `ValueError` if any
entry is `NaN`/`NaT`-derived or non-numeric text. -/
def astypeInt (col : List (Option Int)) : Except String (List Int) :=
  if col.all (fun x => x.isSome) then .ok (col.filterMap id)
  else .error "ValueError: cannot convert non-finite or non-numeric values to integer"

/-- One fully-processed output row of `process_columns`. -/
structure StopRecord where
  train_num : Int
  station : String
  direction : String
  origin_date : Int
  sched : Int
  act_time : Int
  act_full : Int
  timedelta_from_sched : Int
  service_disruption : Int
  cancellations : Int
  deriving DecidableEq

/-- The final `.replace(empty, np.nan).dropna()` applied to one built row: the
row survives only with every field populated (non-`NaT`, non-empty text). -/
def finalizeRow (r : TrainRawRow) : Option StopRecord :=
  match r.train_num, r.origin_date, r.sched, actTimeOnly r.act, actDate r,
      parseFlag "SD" r.service_disruption, parseFlag "C" r.cancellations with
  | some tn, some od, some sc, some atm, some ad, some sd, some cc =>
      if r.station = "" ∨ r.direction = "" then none
      else some ⟨tn, r.station, r.direction, od, sc, atm,
                 actDateCorrected sc ad, timedeltaFromSched sc ad, sd, cc⟩
  | _, _, _, _, _, _, _ => none

/-- The whole-frame `process_columns`, in source order: `pd.to_numeric`
on `Train #` first (`errors=raise`), then the delay column through
`np.rint(diff).astype(int)`, then the two flag columns through
`.astype(int)`, and only then the final `dropna`. -/
def processColumns (rows : List TrainRawRow) : Except String (List StopRecord) :=
  if ¬ rows.all (fun r => r.train_num.isSome) then
    .error "ValueError: unable to parse string (pd.to_numeric)"
  else
    match astypeInt (rows.map diffOfRow) with
    | .error e => .error e
    | .ok _ =>
      match astypeInt (rows.map (fun r => parseFlag "SD" r.service_disruption)) with
      | .error e => .error e
      | .ok _ =>
        match astypeInt (rows.map (fun r => parseFlag "C" r.cancellations)) with
        | .error e => .error e
        | .ok _ => .ok (rows.filterMap finalizeRow)

/-! ## HTML table parsing (trains_ETL.py, raw_data_to_raw_df)

`trains_ETL.py` lines 196-225 (and its copy in
trains_retrieve_and_process_data.py lines 183-212).  One fetched page is the
list of its `<tr>` elements, each `<tr>` the list of the text contents of its
cells; the `text_content()` of a row is the concatenation over its cells. -/

/-- The `text_content()` of a `<tr>`: concatenated cell text. -/
def textContent (tr : List String) : String := String.join tr

/-- Auxiliary for `getNum`: the longest digit run at the head of the list. -/
def takeDigits : List Char → List Char
  | [] => []
  | c :: cs => if c.isDigit then c :: takeDigits cs else []

/-- Auxiliary for `getNum`: the first maximal digit run, if any. -/
def firstDigitRun : List Char → Option (List Char)
  | [] => none
  | c :: cs => if c.isDigit then some (c :: takeDigits cs) else firstDigitRun cs

/-- Decimal value of a digit run. -/
def digitsToNat (l : List Char) : Nat :=
  l.foldl (fun acc c => 10 * acc + (c.toNat - Char.toNat '0')) 0

/-- The `get_num` helper: `re.search` for the digit-run pattern, then `int(...)`; `none` when
the string has no digit (whereupon the code raises `AttributeError`). -/
def getNum (s : String) : Option Nat := (firstDigitRun s.data).map digitsToNat

/-- The `get_direction` helper: even train number → Northbound, odd → Southbound. -/
def getDirection (num : Nat) : String :=
  if num % 2 = 0 then "Northbound" else "Southbound"

/-- One row of the raw output frame: the `Direction` and `Station` values
appended alongside the seven parsed cells. -/
structure RawDfRow where
  direction : String
  station : String
  cells : List String
  deriving DecidableEq

/-- The body of `raw_data_to_raw_df` for one page of one station: when the
page has more than 3 `<tr>` elements, derive the direction from the train
number in the title row (`tr_elements[0]`), then keep exactly the rows from
index 2 on whose column count equals `N = 7`; otherwise log and contribute
nothing. -/
def processPage (station : String) (tr_elements : List (List String)) :
    Except String (List RawDfRow) :=
  if tr_elements.length > 3 then
    match getNum (textContent (tr_elements.headD [])) with
    | none => .error "AttributeError: NoneType object has no attribute group"
    | some n =>
        .ok (((tr_elements.drop 2).filter (fun tr => decide (tr.length = 7))).map
          (fun tr => ⟨getDirection n, station, tr⟩))
  else .ok []

/-- The full `raw_data_to_raw_df` over every (station, page) of one
arrival-or-departure bucket, concatenating the per-page rows in order. -/
def rawDataToRawDf : List (String × List (List String)) → Except String (List RawDfRow)
  | [] => .ok []
  | (station, page) :: rest =>
    match processPage station page, rawDataToRawDf rest with
    | .ok rows, .ok restRows => .ok (rows ++ restRows)
    | .error e, _ => .error e
    | .ok _, .error e => .error e

/-! ## Page fetching (trains_ETL.py, make_request and retrieve_data)

`trains_ETL.py` lines 99-150.  `make_request` runs `requests.get(url,
timeout=30)` and `response.raise_for_status()` inside `try`, with
`except requests.exceptions.HTTPError` as the only handler.  The outcome of
one network request is an input of the model. -/

inductive FetchOutcome
  /-- the request returned a success status with this page content. -/
  | success (content : String)
  /-- the request returned an error status: `raise_for_status()` raises
  `requests.exceptions.HTTPError`. -/
  | httpError (msg : String)
  /-- the request timed out: `requests.get` raises
  `requests.exceptions.Timeout`. -/
  | timeout
  /-- the connection failed: `requests.get` raises
  `requests.exceptions.ConnectionError`. -/
  | connectionError
  deriving DecidableEq

/-- The `make_request` function: an HTTP error status is caught and logged, leaving `page`
as `None`; a timeout or connection error matches no `except` clause and
propagates. -/
def makeRequest : FetchOutcome → Except String (Option String)
  | .success content => .ok (some content)
  | .httpError _ => .ok none
  | .timeout => .error "requests.exceptions.Timeout"
  | .connectionError => .error "requests.exceptions.ConnectionError"

/-- The request loop of `retrieve_data` over one list of (station, outcome):
a fetched page is appended to the raw data, a `None` page records the station
in `failed_retrievals`, and an uncaught exception aborts the whole run. -/
def retrieveData :
    List (String × FetchOutcome) → Except String (List (String × String) × List String)
  | [] => .ok ([], [])
  | (station, o) :: rest =>
    match makeRequest o with
    | .error e => .error e
    | .ok (some content) =>
      match retrieveData rest with
      | .error e => .error e
      | .ok (raw, failed) => .ok ((station, content) :: raw, failed)
    | .ok none =>
      match retrieveData rest with
      | .error e => .error e
      | .ok (raw, failed) => .ok (raw, station :: failed)

/-- Outcomes whose exception escapes `make_request`. -/
def aborts : FetchOutcome → Bool
  | .timeout => true
  | .connectionError => true
  | .success _ => false
  | .httpError _ => false

/-- The page a request contributes to the raw data, if any. -/
def pageOf : String × FetchOutcome → Option (String × String)
  | (station, .success content) => some (station, content)
  | _ => none

def isHttpError : FetchOutcome → Bool
  | .httpError _ => true
  | _ => false

/-! ## Weather filtering (weather_ETL.py, ETL_previous_day_weather_data)

`weather_ETL.py` lines 170-181: the hourly CSV is reduced to the rows whose
Temperature, Precipitation and Cloud Cover are all present
(`replace(empty, np.nan).dropna()` over that column subset); the surviving rows
are written out and inserted into `weather_hourly`, and the log reports
`(# Rows Kept: {rows_kept}/24)`.  A missing CSV field is `none`. -/

structure WeatherCSVRow where
  address : String
  date_time : String
  temperature : Option ℚ
  precipitation : Option ℚ
  cloud_cover : Option ℚ
  weather_type : Option String
  deriving DecidableEq

/-- A row is kept iff temperature, precipitation and cloud cover are all
present; `weather_type` is not consulted. -/
def keepWeatherRow (r : WeatherCSVRow) : Bool :=
  r.temperature.isSome && r.precipitation.isSome && r.cloud_cover.isSome

/-- The persisted rows: `full_weather = full_weather.iloc[drop_na_index]`. -/
def filterWeather (rows : List WeatherCSVRow) : List WeatherCSVRow :=
  rows.filter keepWeatherRow

/-- The reported count `rows_kept = drop_na_index.shape[0]`. -/
def rowsKept (rows : List WeatherCSVRow) : Nat := (filterWeather rows).length

/-- The `(# Rows Kept: {rows_kept}/24)` log report, as (kept, out-of). -/
def keptReport (rows : List WeatherCSVRow) : Nat × Nat := (rowsKept rows, 24)

end AmtrakETL

namespace AmtrakETL

/-- C1: Midnight-rollover correction.  If the naive actual-minus-scheduled
delta is more negative than -10 hours, one calendar day is added to the actual
date-time; if the delta computed the opposite way is more negative than -10
hours, one day is subtracted; and the concrete example scheduled 2021-07-04
23:55 (day 184 of 2021, minute 1435) with actual time string "00:10" yields
corrected actual date-time 2021-07-05 00:10 and delay +15 minutes. -/
theorem c1_midnight_rollover :
    (∀ sched act : Int, act - sched < -maxExpectedDelay →
        actDateCorrected sched act = act + minutesPerDay) ∧
    (∀ sched act : Int, sched - act < -maxExpectedDelay →
        actDateCorrected sched act = act - minutesPerDay) ∧
    actDateCorrected (mkDT 184 1435) (mkDT 184 10) = mkDT 185 10 ∧
    timedeltaFromSched (mkDT 184 1435) (mkDT 184 10) = 15 := by
  refine ⟨?_, ?_, by decide, by decide⟩
  · intro sched act h
    simp only [maxExpectedDelay] at h
    simp only [actDateCorrected, maxExpectedDelay, minutesPerDay]
    split_ifs <;> omega
  · intro sched act h
    simp only [maxExpectedDelay] at h
    simp only [actDateCorrected, maxExpectedDelay, minutesPerDay]
    split_ifs <;> omega

/-- Witness for C1: the rollover theorem applied at the concrete example row
(scheduled day 184 minute 1435, naive actual day 184 minute 10). -/
theorem c1_midnight_rollover_witness :
    actDateCorrected (mkDT 184 1435) (mkDT 184 10) = mkDT 184 10 + minutesPerDay :=
  c1_midnight_rollover.1 (mkDT 184 1435) (mkDT 184 10) (by decide)

theorem sqlLike_empty_snow : sqlLike "" "Snow" = false := by decide

theorem sqlLike_empty_rain : sqlLike "" "Rain" = false := by decide

/-- C2 counterexample: the `CASE` expression of `update_precip` has no `ELSE`
branch, so a reachable joined row whose non-null weather-type text is nonempty
but contains neither marker — here "Overcast" with precipitation 0 and
temperature 45 — is assigned SQL `NULL`, not one of the three categories.  The
classification is therefore not total over the reachable combinations. -/
theorem c2_counterexample :
    updatePrecip "Overcast" 0 45 = none ∧
    ¬(updatePrecip "Overcast" 0 45 = some "None" ∨
      updatePrecip "Overcast" 0 45 = some "Rain" ∨
      updatePrecip "Overcast" 0 45 = some "Snow") := by decide

/-- C2 (amended): restricted to rows whose weather-type text is empty or
contains a snow or rain marker (and whose precipitation amount is nonnegative,
as for every valid WeatherObservation), the classification assigns exactly one
of {None, Rain, Snow}, following the fixed priority order: empty text and zero
precipitation → "None"; text containing a snow marker (even together with a
rain marker) → "Snow"; text containing a rain marker alone → "Rain"; empty
text with nonzero precipitation → "Rain" if temperature ≥ 32, else "Snow".
Rows whose nonempty text contains neither marker receive NULL. -/
theorem c2_precip_classification (wt : String) (precip temp : ℚ)
    (hprecip : 0 ≤ precip)
    (hmark : wt = "" ∨ sqlLike wt "Snow" = true ∨ sqlLike wt "Rain" = true) :
    (updatePrecip wt precip temp = some "None" ∨
     updatePrecip wt precip temp = some "Rain" ∨
     updatePrecip wt precip temp = some "Snow") ∧
    (wt = "" ∧ precip = 0 → updatePrecip wt precip temp = some "None") ∧
    (sqlLike wt "Snow" = true → updatePrecip wt precip temp = some "Snow") ∧
    (sqlLike wt "Rain" = true → sqlLike wt "Snow" = false →
        updatePrecip wt precip temp = some "Rain") ∧
    (wt = "" → 0 < precip →
        (32 ≤ temp → updatePrecip wt precip temp = some "Rain") ∧
        (temp < 32 → updatePrecip wt precip temp = some "Snow")) := by
  by_cases hw : wt = ""
  · subst hw
    by_cases hp : precip = 0
    · simp [updatePrecip, sqlLike_empty_snow, sqlLike_empty_rain, hp]
    · have hp' : 0 < precip := lt_of_le_of_ne hprecip (Ne.symm hp)
      by_cases ht : 32 ≤ temp
      · simp [updatePrecip, sqlLike_empty_snow, sqlLike_empty_rain, hp, hp', ht,
              not_lt.mpr ht]
      · simp [updatePrecip, sqlLike_empty_snow, sqlLike_empty_rain, hp, hp', ht,
              not_le.mp ht]
  · by_cases hS : sqlLike wt "Snow" = true
    · by_cases hR : sqlLike wt "Rain" = true
      · simp [updatePrecip, hw, hS, hR]
      · rw [Bool.not_eq_true] at hR
        simp [updatePrecip, hw, hS, hR]
    · rw [Bool.not_eq_true] at hS
      by_cases hR : sqlLike wt "Rain" = true
      · simp [updatePrecip, hw, hS, hR]
      · rw [Bool.not_eq_true] at hR
        rcases hmark with h | h | h
        · exact absurd h hw
        · rw [hS] at h; exact absurd h (by decide)
        · rw [hR] at h; exact absurd h (by decide)

/-- Witness for C2 (amended): the classification theorem applied at the
concrete reachable row ("Light Rain, Snow", precipitation 0.2, temperature 30),
which receives exactly "Snow". -/
theorem c2_precip_classification_witness :
    updatePrecip "Light Rain, Snow" (2/10) 30 = some "Snow" :=
  (c2_precip_classification "Light Rain, Snow" (2/10) 30 (by norm_num)
      (Or.inr (Or.inl (by decide)))).2.2.1 (by decide)

/-- A row survives the dedup pass iff it is in the table and no row of its
partition has a smaller `stop_id`. -/
theorem mem_removeDuplicates {t : List JoinedStop} {r : JoinedStop} :
    r ∈ removeDuplicates t ↔
      r ∈ t ∧ ∀ s ∈ t, natKey s = natKey r → r.stop_id ≤ s.stop_id := by
  unfold removeDuplicates
  rw [List.mem_filter, decide_eq_true_eq]
  refine and_congr_right fun _ => ?_
  unfold rowNumber
  constructor
  · intro h s hs hk
    by_contra hlt
    rw [Nat.not_le] at hlt
    have hmem : s ∈ t.filter
        (fun s => decide (natKey s = natKey r ∧ s.stop_id < r.stop_id)) := by
      rw [List.mem_filter, decide_eq_true_eq]
      exact ⟨hs, hk, hlt⟩
    have := List.length_pos.mpr (List.ne_nil_of_mem hmem)
    omega
  · intro h
    have hnil : t.filter
        (fun s => decide (natKey s = natKey r ∧ s.stop_id < r.stop_id)) = [] := by
      rw [List.filter_eq_nil_iff]
      intro a ha
      simp only [decide_eq_true_eq, not_and]
      intro hk
      exact Nat.not_lt.mpr (h a ha hk)
    rw [hnil]
    simp

/-- Pairwise-distinct surrogate ids make `stop_id` injective on the table. -/
theorem stop_id_inj {t : List JoinedStop}
    (hid : t.Pairwise (fun a b => a.stop_id ≠ b.stop_id)) :
    ∀ r ∈ t, ∀ s ∈ t, r.stop_id = s.stop_id → r = s := by
  intro r hr s hs heq
  by_contra hne
  have hsymm : Symmetric (fun (a b : JoinedStop) => a.stop_id ≠ b.stop_id) := by
    intro a b h he
    exact h he.symm
  exact (hid.forall hsymm hr hs hne) heq

theorem length_le_one_of_nodup_all_eq {α : Type*} {S : List α} (hnd : S.Nodup)
    (hall : ∀ a ∈ S, ∀ b ∈ S, a = b) : S.length ≤ 1 := by
  match S with
  | [] => simp
  | [a] => simp
  | a :: b :: rest =>
    exfalso
    have hne : a ≠ b := (List.pairwise_cons.mp hnd).1 b (List.mem_cons_self b rest)
    exact hne (hall a (by simp) b (by simp))

theorem exists_min_stop_id (l : List JoinedStop) (h : l ≠ []) :
    ∃ a ∈ l, ∀ b ∈ l, a.stop_id ≤ b.stop_id := by
  induction l with
  | nil => exact absurd rfl h
  | cons x xs ih =>
    rcases eq_or_ne xs [] with hxs | hxs
    · subst hxs
      refine ⟨x, List.mem_cons_self x [], ?_⟩
      intro b hb
      rcases List.mem_cons.mp hb with rfl | hb
      · exact le_refl _
      · exact absurd hb (List.not_mem_nil b)
    · obtain ⟨a, ha, hmin⟩ := ih hxs
      by_cases hxa : x.stop_id ≤ a.stop_id
      · refine ⟨x, List.mem_cons_self x xs, ?_⟩
        intro b hb
        rcases List.mem_cons.mp hb with rfl | hb
        · exact le_refl _
        · exact le_trans hxa (hmin b hb)
      · refine ⟨a, List.mem_cons_of_mem x ha, ?_⟩
        intro b hb
        rcases List.mem_cons.mp hb with rfl | hb
        · exact le_of_lt (Nat.lt_of_not_le hxa)
        · exact hmin b hb

/-- C3: Deduplication invariant.  With pairwise-distinct surrogate ids (as for
the serial primary key `stop_id`): after the pass, at most one row remains per
natural key; if the table held at least one row of a key — in particular when
two candidates shared it — exactly one row of that key survives; and every
survivor is the row with the lowest surrogate `stop_id` of its partition. -/
theorem c3_deduplication (t : List JoinedStop) (k : Int × Nat × String × String)
    (hid : t.Pairwise (fun a b => a.stop_id ≠ b.stop_id)) :
    ((removeDuplicates t).countP (fun r => decide (natKey r = k)) ≤ 1) ∧
    ((∃ r ∈ t, natKey r = k) →
      (removeDuplicates t).countP (fun r => decide (natKey r = k)) = 1) ∧
    (∀ r ∈ removeDuplicates t, ∀ s ∈ t, natKey s = natKey r →
      r.stop_id ≤ s.stop_id) := by
  have hcount : (removeDuplicates t).countP (fun r => decide (natKey r = k)) =
      ((removeDuplicates t).filter (fun r => decide (natKey r = k))).length :=
    List.countP_eq_length_filter _ _
  set S := (removeDuplicates t).filter (fun r => decide (natKey r = k)) with hS
  have hmemS : ∀ a ∈ S, a ∈ removeDuplicates t ∧ natKey a = k := by
    intro a ha
    rw [hS, List.mem_filter, decide_eq_true_eq] at ha
    exact ha
  have hall : ∀ a ∈ S, ∀ b ∈ S, a = b := by
    intro a ha b hb
    obtain ⟨haD, hak⟩ := hmemS a ha
    obtain ⟨hbD, hbk⟩ := hmemS b hb
    obtain ⟨hat, hamin⟩ := mem_removeDuplicates.mp haD
    obtain ⟨hbt, hbmin⟩ := mem_removeDuplicates.mp hbD
    have h1 : a.stop_id ≤ b.stop_id := hamin b hbt (hbk.trans hak.symm)
    have h2 : b.stop_id ≤ a.stop_id := hbmin a hat (hak.trans hbk.symm)
    exact stop_id_inj hid a hat b hbt (Nat.le_antisymm h1 h2)
  have hnodup : S.Nodup := by
    have ht : t.Nodup :=
      hid.imp fun hne heq => hne (congrArg JoinedStop.stop_id heq)
    exact (ht.filter _).filter _
  refine ⟨?_, ?_, ?_⟩
  · rw [hcount]
    exact length_le_one_of_nodup_all_eq hnodup hall
  · rintro ⟨r0, hr0t, hr0k⟩
    have hr0l : r0 ∈ t.filter (fun s => decide (natKey s = k)) := by
      rw [List.mem_filter, decide_eq_true_eq]
      exact ⟨hr0t, hr0k⟩
    obtain ⟨m, hml, hmmin⟩ :=
      exists_min_stop_id _ (List.ne_nil_of_mem hr0l)
    rw [List.mem_filter, decide_eq_true_eq] at hml
    obtain ⟨hmt, hmk⟩ := hml
    have hmD : m ∈ removeDuplicates t := by
      rw [mem_removeDuplicates]
      refine ⟨hmt, ?_⟩
      intro s hs hsk
      have hsl : s ∈ t.filter (fun s => decide (natKey s = k)) := by
        rw [List.mem_filter, decide_eq_true_eq]
        exact ⟨hs, hsk.trans hmk⟩
      exact hmmin s hsl
    have hmS : m ∈ S := by
      rw [hS, List.mem_filter, decide_eq_true_eq]
      exact ⟨hmD, hmk⟩
    have hpos := List.length_pos.mpr (List.ne_nil_of_mem hmS)
    have hle : S.length ≤ 1 := length_le_one_of_nodup_all_eq hnodup hall
    rw [hcount]
    omega
  · intro r hr s hs hsk
    exact (mem_removeDuplicates.mp hr).2 s hs hsk

/-- Witness for C3: the dedup theorem applied to a concrete two-row table
sharing one natural key; exactly one row survives. -/
theorem c3_deduplication_witness :
    (removeDuplicates
        [⟨1, 0, 172, "NYP", "Departure"⟩, ⟨2, 0, 172, "NYP", "Departure"⟩]).countP
      (fun r => decide (natKey r = (0, 172, "NYP", "Departure"))) = 1 :=
  (c3_deduplication
      [⟨1, 0, 172, "NYP", "Departure"⟩, ⟨2, 0, 172, "NYP", "Departure"⟩]
      (0, 172, "NYP", "Departure") (by decide)).2.1
    ⟨⟨1, 0, 172, "NYP", "Departure"⟩, by decide, by decide⟩

/-- After an upsert of `r`, a row with the natural key of `r` is present. -/
theorem any_key_insertIntoStops (t : List StopRow) (r : StopRow) :
    (insertIntoStops t r).any (fun s => decide (stopsNatKey s = stopsNatKey r)) = true := by
  unfold insertIntoStops
  split
  · assumption
  · rw [List.any_eq_true]
    exact ⟨r, by simp, by simp⟩

/-- If a row with the natural key of `r` is present, the upsert is a no-op. -/
theorem insertIntoStops_of_any (t : List StopRow) (r : StopRow)
    (h : t.any (fun s => decide (stopsNatKey s = stopsNatKey r)) = true) :
    insertIntoStops t r = t := by
  unfold insertIntoStops
  rw [if_pos h]

/-- C4: Upsert idempotence.  Inserting the same normalized stop row twice
through the conflict-ignore upsert is the same as inserting it once, and on a
table not yet holding the natural key of the row it leaves exactly one row with
that key, so re-running the ETL of a day leaves the store unchanged. -/
theorem c4_upsert_idempotent (t : List StopRow) (r : StopRow)
    (h : ∀ s ∈ t, stopsNatKey s ≠ stopsNatKey r) :
    insertIntoStops (insertIntoStops t r) r = insertIntoStops t r ∧
    (insertIntoStops (insertIntoStops t r) r).countP
      (fun s => decide (stopsNatKey s = stopsNatKey r)) = 1 := by
  have hidem : insertIntoStops (insertIntoStops t r) r = insertIntoStops t r :=
    insertIntoStops_of_any _ _ (any_key_insertIntoStops t r)
  refine ⟨hidem, ?_⟩
  have hnot : ¬ (t.any (fun s => decide (stopsNatKey s = stopsNatKey r)) = true) := by
    rw [List.any_eq_true]
    rintro ⟨s, hs, hp⟩
    rw [decide_eq_true_eq] at hp
    exact h s hs hp
  have hins : insertIntoStops t r = t ++ [r] := by
    unfold insertIntoStops
    rw [if_neg hnot]
  have h0 : t.countP (fun s => decide (stopsNatKey s = stopsNatKey r)) = 0 := by
    rw [List.countP_eq_zero]
    intro s hs
    simp only [decide_eq_true_eq]
    exact h s hs
  rw [hidem, hins, List.countP_append, h0]
  simp

/-- Witness for C4: the idempotence theorem applied to the empty table and a
concrete normalized stop row. -/
theorem c4_upsert_idempotent_witness :
    (insertIntoStops (insertIntoStops [] ⟨"Departure", 172, "NYP", 184, ["Northbound"]⟩)
        ⟨"Departure", 172, "NYP", 184, ["Northbound"]⟩).countP
      (fun s => decide (stopsNatKey s =
        stopsNatKey ⟨"Departure", 172, "NYP", 184, ["Northbound"]⟩)) = 1 :=
  (c4_upsert_idempotent [] ⟨"Departure", 172, "NYP", 184, ["Northbound"]⟩
    (by intro s hs; exact absurd hs (List.not_mem_nil s))).2

/-- C5: the batch-preservation claim fails on the code.  `conn.rollback()`
aborts the whole open transaction, so a database error on one row discards
every good row executed since the last commit: on the batch
[good row 1, bad row] nothing at all is persisted, and on
[good row 1, bad row, good row 2] only the rows after the failure survive
(the committed state is [2], and good row 1 is lost). -/
theorem c5_rollback_loses_prior_rows :
    (updateTable (⟨[], []⟩ : PgConn ℕ) [some 1, none]).committed = [] ∧
    (updateTable (⟨[], []⟩ : PgConn ℕ) [some 1, none, some 2]).committed = [2] ∧
    (updateTable (⟨[], []⟩ : PgConn ℕ) [some 1, some 2]).committed = [1, 2] := by
  refine ⟨rfl, rfl, rfl⟩

/-- C7: Malformed-row exclusion.  For one parsed page, every row the parser
appends to the output frame has exactly 7 cells, and a data row (any row
after the title and header rows) whose column count differs from 7 is
excluded from the output of the page. -/
theorem c7_malformed_row_exclusion (station : String) (trs : List (List String))
    (out : List RawDfRow) (h : processPage station trs = .ok out) :
    (∀ r ∈ out, r.cells.length = 7) ∧
    (∀ tr ∈ trs.drop 2, tr.length ≠ 7 → ∀ r ∈ out, r.cells ≠ tr) := by
  unfold processPage at h
  split at h
  · split at h
    · exact absurd h (by simp)
    · cases h
      constructor
      · intro r hr
        rw [List.mem_map] at hr
        obtain ⟨tr, htr, rfl⟩ := hr
        rw [List.mem_filter, decide_eq_true_eq] at htr
        exact htr.2
      · intro tr _ hne r hr heq
        rw [List.mem_map] at hr
        obtain ⟨tr', htr', rfl⟩ := hr
        rw [List.mem_filter, decide_eq_true_eq] at htr'
        exact hne (heq ▸ htr'.2)
  · cases h
    exact ⟨fun r hr => absurd hr (List.not_mem_nil r),
           fun tr _ _ r hr => absurd hr (List.not_mem_nil r)⟩

/-- Witness for C7: on a concrete page with one 7-column data row and one
6-column data row, the output of the parser holds the former and excludes the
latter. -/
theorem c7_malformed_row_exclusion_witness :
    (⟨"Northbound", "NYP",
        ["07/04/2021", "172", "NYP", "07/04/2021 11:55 PM", "12:10AM", "", ""]⟩ :
      RawDfRow).cells ≠ ["07/05/2021", "172", "NYP", "1", "2", "3"] :=
  (c7_malformed_row_exclusion "NYP"
      [["Amtrak Train 172 History"],
       ["Origin Date", "Train #", "Station", "Sch Ar", "Act Ar",
        "Service Disruption", "Cancellations"],
       ["07/04/2021", "172", "NYP", "07/04/2021 11:55 PM", "12:10AM", "", ""],
       ["07/05/2021", "172", "NYP", "1", "2", "3"]]
      [⟨"Northbound", "NYP",
        ["07/04/2021", "172", "NYP", "07/04/2021 11:55 PM", "12:10AM", "", ""]⟩]
      (by rfl)).2
    ["07/05/2021", "172", "NYP", "1", "2", "3"] (by decide) (by decide)
    ⟨"Northbound", "NYP",
      ["07/04/2021", "172", "NYP", "07/04/2021 11:55 PM", "12:10AM", "", ""]⟩
    (by decide)

/-- C10: Implicit minimum-page-size guard.  A page whose parsed HTML holds 3
or fewer `<tr>` elements contributes zero output rows — even when its single
data row is well-formed — so rows only ever come from pages with more than 3
`<tr>` elements, i.e. at least two data rows. -/
theorem c10_min_page_size (station : String) (trs : List (List String)) :
    (trs.length ≤ 3 → processPage station trs = .ok []) ∧
    (∀ out, processPage station trs = .ok out → out ≠ [] → 3 < trs.length) := by
  constructor
  · intro h
    unfold processPage
    rw [if_neg (by omega)]
  · intro out h hne
    by_contra hle
    rw [Nat.not_lt] at hle
    unfold processPage at h
    rw [if_neg (by omega)] at h
    cases h
    exact hne rfl

/-- Witness for C10: a concrete 3-row page whose single data row is
well-formed with exactly 7 columns still contributes zero output rows. -/
theorem c10_min_page_size_witness :
    processPage "NYP"
      [["Amtrak Train 172 History"],
       ["Origin Date", "Train #", "Station", "Sch Ar", "Act Ar",
        "Service Disruption", "Cancellations"],
       ["07/04/2021", "172", "NYP", "07/04/2021 11:55 PM", "12:10AM", "", ""]]
      = .ok [] :=
  (c10_min_page_size "NYP"
      [["Amtrak Train 172 History"],
       ["Origin Date", "Train #", "Station", "Sch Ar", "Act Ar",
        "Service Disruption", "Cancellations"],
       ["07/04/2021", "172", "NYP", "07/04/2021 11:55 PM", "12:10AM", "", ""]]).1
    (by decide)

/-- C6: the unparseable-row-dropping claim fails on the code.  A row whose
scheduled time coerced to `NaT` (second row of the first frame), or whose
actual time is unparseable text (second row of the second frame), reaches
`np.rint(diff).astype(int)` with a non-finite delay, which raises and loses
the whole frame — the well-formed first row is not returned.  By contrast a
row whose actual-time cell is merely empty composes to midnight, survives the
conversion and is then correctly dropped by `dropna` (fourth frame), and a
fully parseable frame is fully returned (third frame). -/
theorem c6_unparseable_time_crashes :
    processColumns
        [⟨some 172, "NYP", "Northbound", some 184, some (mkDT 184 1435),
            .parseable 10, "", ""⟩,
         ⟨some 172, "NHV", "Northbound", some 184, none, .parseable 30, "", ""⟩]
      = .error "ValueError: cannot convert non-finite or non-numeric values to integer" ∧
    processColumns
        [⟨some 172, "NYP", "Northbound", some 184, some (mkDT 184 1435),
            .parseable 10, "", ""⟩,
         ⟨some 172, "NHV", "Northbound", some 184, some (mkDT 184 1500),
            .garbage, "", ""⟩]
      = .error "ValueError: cannot convert non-finite or non-numeric values to integer" ∧
    processColumns
        [⟨some 172, "NYP", "Northbound", some 184, some (mkDT 184 1435),
            .parseable 10, "", ""⟩]
      = .ok [⟨172, "NYP", "Northbound", 184, mkDT 184 1435, 10, mkDT 185 10, 15, 0, 0⟩] ∧
    processColumns
        [⟨some 172, "NYP", "Northbound", some 184, some (mkDT 184 1435),
            .parseable 10, "", ""⟩,
         ⟨some 172, "NHV", "Northbound", some 184, some (mkDT 184 1500),
            .empty, "", ""⟩]
      = .ok [⟨172, "NYP", "Northbound", 184, mkDT 184 1435, 10, mkDT 185 10, 15, 0, 0⟩] := by
  refine ⟨rfl, rfl, rfl, rfl⟩

/-- C8 counterexample: only `requests.exceptions.HTTPError` is caught, so a
timed-out request aborts the whole run — the batch does not proceed to the
remaining station and no failed-retrieval entry is recorded. -/
theorem c8_counterexample :
    retrieveData
        [("BOS", .success "page"), ("NYP", .timeout), ("PHL", .success "page")]
      = .error "requests.exceptions.Timeout" := rfl

/-- C8 (amended): for runs in which every request either succeeds or returns
an HTTP error status, each HTTP-error request is recorded as a
failed-retrieval entry while the batch proceeds to the remaining stations
with no retry; but a timeout or other network error raises an exception that
`make_request` does not catch, aborting the run. -/
theorem c8_http_error_skip (reqs : List (String × FetchOutcome))
    (h : ∀ p ∈ reqs, aborts p.2 = false) :
    retrieveData reqs =
      .ok (reqs.filterMap pageOf,
           (reqs.filter (fun p => isHttpError p.2)).map Prod.fst) := by
  induction reqs with
  | nil => rfl
  | cons p rest ih =>
    obtain ⟨station, o⟩ := p
    have ho : aborts o = false := h _ (List.mem_cons_self _ _)
    have hrest : ∀ q ∈ rest, aborts q.2 = false :=
      fun q hq => h q (List.mem_cons_of_mem _ hq)
    cases o with
    | success c =>
      simp [retrieveData, makeRequest, ih hrest, pageOf, isHttpError,
            List.filterMap_cons, List.filter_cons]
    | httpError m =>
      simp [retrieveData, makeRequest, ih hrest, pageOf, isHttpError,
            List.filterMap_cons, List.filter_cons]
    | timeout => simp [aborts] at ho
    | connectionError => simp [aborts] at ho

/-- Witness for C8 (amended): a concrete run with one success and one HTTP
error keeps the fetched page and records the erroring station as failed. -/
theorem c8_http_error_skip_witness :
    retrieveData [("BOS", .success "page"), ("NYP", .httpError "503 Server Error")]
      = .ok ([("BOS", "page")], ["NYP"]) :=
  (c8_http_error_skip
      [("BOS", .success "page"), ("NYP", .httpError "503 Server Error")]
      (by decide)).trans rfl

theorem countP_keep_add_countP_drop (l : List WeatherCSVRow) :
    l.countP keepWeatherRow + l.countP (fun r => !keepWeatherRow r) = l.length := by
  induction l with
  | nil => rfl
  | cons x xs ih =>
    rw [List.countP_cons, List.countP_cons]
    cases h : keepWeatherRow x <;> simp [h] <;> omega

/-- C9: Weather filtering and kept-count.  Every persisted row has
temperature, precipitation and cloud cover present; a row missing any of the
three is not persisted; and a location returning 24 hourly rows of which
exactly 2 fail the filter persists exactly 22 rows and reports kept 22/24. -/
theorem c9_weather_filter (rows : List WeatherCSVRow) :
    (∀ r ∈ filterWeather rows,
        r.temperature.isSome = true ∧ r.precipitation.isSome = true ∧
        r.cloud_cover.isSome = true) ∧
    (∀ r ∈ rows, keepWeatherRow r = false → r ∉ filterWeather rows) ∧
    (rows.length = 24 → rows.countP (fun r => !keepWeatherRow r) = 2 →
        rowsKept rows = 22 ∧ keptReport rows = (22, 24)) := by
  refine ⟨?_, ?_, ?_⟩
  · intro r hr
    rw [filterWeather, List.mem_filter] at hr
    have hk := hr.2
    rw [keepWeatherRow, Bool.and_eq_true, Bool.and_eq_true] at hk
    exact ⟨hk.1.1, hk.1.2, hk.2⟩
  · intro r _ hfalse hmem
    rw [filterWeather, List.mem_filter] at hmem
    rw [hfalse] at hmem
    exact absurd hmem.2 (by simp)
  · intro hlen hdrop
    have hsplit := countP_keep_add_countP_drop rows
    have hkept : rowsKept rows = rows.countP keepWeatherRow := by
      rw [rowsKept, filterWeather, List.countP_eq_length_filter]
    refine ⟨?_, ?_⟩
    · omega
    · rw [keptReport]
      have : rowsKept rows = 22 := by omega
      rw [this]

/-- Witness for C9: the filtering theorem applied to a concrete 24-row hourly
fetch in which exactly the first 2 rows are missing cloud cover. -/
theorem c9_weather_filter_witness :
    rowsKept ((List.range 24).map (fun i =>
        ⟨"Boston, MA", "", some 50, some 0,
          if i < 2 then none else some 1, some ""⟩)) = 22 ∧
    keptReport ((List.range 24).map (fun i =>
        ⟨"Boston, MA", "", some 50, some 0,
          if i < 2 then none else some 1, some ""⟩)) = (22, 24) :=
  (c9_weather_filter ((List.range 24).map (fun i =>
      ⟨"Boston, MA", "", some 50, some 0,
        if i < 2 then none else some 1, some ""⟩))).2.2 (by decide) (by decide)

end AmtrakETL
